import Mathlib

/-!
Verification of the Broadcast Campaign Dispatch Engine of the chatbotcate
repository, as a shallow embedding in Lean 4.

The embedding covers the two dispatch paths of the repository:

* the Telegram campaign lifecycle (`TelegramBroadcastService` in
  `internal/services/cleanup_service.go`): create / update / send / cancel /
  duplicate / preview / validate / export / import, over the
  `TelegramBroadcast` model of `src/unnamed/part_003`;
* the WhatsApp batch dispatcher (`WhatsAppService.BroadcastMessage` and
  `processBroadcastBatch` in the same file), which partitions the recipient
  list into batches of 50 and records one `BroadcastRecipient` outcome row
  per recipient.

External collaborators (the gorm database, the Telegram HTTP client, the
contact directory) are modelled as oracle parameters: the database save
operations are modelled as always succeeding (every claim considered here is
about the happy path of persistence), the gateway send and the contact
resolution are arbitrary functions supplied to the dispatcher.  Timestamps
are modelled as natural numbers passed in as a `now` parameter; Go `int64`
chat identifiers are modelled as `Int`; uuid values as `Nat`.
-/

/-- The `TelegramBroadcast` gorm model (src/unnamed/part_003, lines 38-51).
Fields `SentAt`/`CompletedAt` are nullable pointers in Go, hence `Option`. -/
structure TelegramBroadcast where
  id : Nat
  name : String
  message : String
  recipients : List Int
  status : String
  successCount : Nat
  failureCount : Nat
  userId : Nat
  createdAt : Nat
  updatedAt : Nat
  sentAt : Option Nat
  completedAt : Option Nat
deriving DecidableEq

/-- `CreateTelegramBroadcast` (cleanup_service.go, lines 977-995): stores the
given fields verbatim (no validation of the recipients), status `"pending"`,
counters at their Go zero value 0. -/
def createTelegramBroadcast (newId : Nat) (now : Nat) (name message : String)
    (recipients : List Int) (userId : Nat) : TelegramBroadcast :=
  { id := newId
    name := name
    message := message
    recipients := recipients
    status := "pending"
    successCount := 0
    failureCount := 0
    userId := userId
    createdAt := now
    updatedAt := now
    sentAt := none
    completedAt := none }

/-- `UpdateTelegramBroadcast` (cleanup_service.go, lines 1009-1034): each
field is overwritten only when its argument is non-empty (for the recipient
slice: non-nil, modelled by `Option`); `UpdatedAt` is always refreshed. -/
def updateTelegramBroadcast (now : Nat) (b : TelegramBroadcast)
    (name message : String) (recipients : Option (List Int)) : TelegramBroadcast :=
  let b1 := if name ≠ "" then { b with name := name } else b
  let b2 := if message ≠ "" then { b1 with message := message } else b1
  let b3 := match recipients with
            | some rs => { b2 with recipients := rs }
            | none => b2
  { b3 with updatedAt := now }

/-- `SendTelegramBroadcast` (cleanup_service.go, lines 1047-1086).  The
function loads the campaign, saves it with status `"sending"` and
`SentAt = now` (this intermediate state is `sendTelegramBroadcastFirstSave`),
then walks the recipient list invoking the gateway
(`telegramService.SendMessage`, modelled by the oracle `gw`), counting
successes, and finally saves status `"completed"`,
`SuccessCount = successCount`, `FailureCount = len(recipients) - successCount`
and `CompletedAt = now`.  There is no check of the prior status. -/
def sendTelegramBroadcastFirstSave (now : Nat) (b : TelegramBroadcast) : TelegramBroadcast :=
  { b with status := "sending", sentAt := some now }

/-- The completed state produced by `SendTelegramBroadcast`; see
`sendTelegramBroadcastFirstSave` for the intermediate save. -/
def sendTelegramBroadcast (gw : Int → String → Bool) (now : Nat)
    (b : TelegramBroadcast) : TelegramBroadcast :=
  let b1 := sendTelegramBroadcastFirstSave now b
  let successCount := b1.recipients.countP (fun r => gw r b1.message)
  { b1 with
    status := "completed"
    successCount := successCount
    failureCount := b1.recipients.length - successCount
    completedAt := some now }

/-- `CancelTelegramBroadcast` (cleanup_service.go, lines 1179-1199): rejects
with the error `"can only cancel pending broadcasts"` unless the status is
exactly `"pending"`; on success saves status `"cancelled"` and refreshes
`UpdatedAt`.  On the error path nothing is saved. -/
def cancelTelegramBroadcast (now : Nat) (b : TelegramBroadcast) :
    Except String TelegramBroadcast :=
  if b.status ≠ "pending" then .error "can only cancel pending broadcasts"
  else .ok { b with status := "cancelled", updatedAt := now }

/-- `DuplicateTelegramBroadcast` (cleanup_service.go, lines 1202-1227): a new
record with a fresh uuid, name suffixed `" (Copy)"`, same message and
recipients, status `"pending"`, and every unset field at its Go zero value
(counters 0, nil timestamps). -/
def duplicateTelegramBroadcast (newId : Nat) (now : Nat) (userId : Nat)
    (original : TelegramBroadcast) : TelegramBroadcast :=
  { id := newId
    name := original.name ++ " (Copy)"
    message := original.message
    recipients := original.recipients
    status := "pending"
    successCount := 0
    failureCount := 0
    userId := userId
    createdAt := now
    updatedAt := now
    sentAt := none
    completedAt := none }

/-- The error string produced by `fmt.Sprintf("Invalid recipient ID: %d", r)`
in `ValidateRecipients`. -/
def invalidRecipientMsg (r : Int) : String :=
  "Invalid recipient ID: " ++ toString r

/-- `ValidateRecipients` (cleanup_service.go, lines 1246-1259): one pass over
the input, appending each non-positive identifier's error string to the error
list and each positive identifier to the valid list.  The function has no
error return at all. -/
def validateRecipients (recipients : List Int) : List Int × List String :=
  recipients.foldl
    (fun acc r =>
      if r ≤ 0 then (acc.1, acc.2 ++ [invalidRecipientMsg r])
      else (acc.1 ++ [r], acc.2))
    ([], [])

/-- The preview map built by `PreviewTelegramBroadcast` (cleanup_service.go,
lines 1262-1273).  `estimatedDelivery` models
`time.Now().Add(time.Duration(len(recipients)) * time.Second)` with `now` in
nanoseconds (`time.Second` = 10^9 ns); `messageLength` models Go `len(message)`,
i.e. the UTF-8 byte size. -/
structure BroadcastPreview where
  message : String
  recipientCount : Nat
  estimatedDelivery : Nat
  messageLength : Nat
  hasMedia : Bool
  hasLinks : Bool
deriving DecidableEq

/-- `PreviewTelegramBroadcast` itself: a pure function of its arguments that
touches no store. -/
def previewTelegramBroadcast (now : Nat) (message : String)
    (recipients : List Int) : BroadcastPreview :=
  { message := message
    recipientCount := recipients.length
    estimatedDelivery := now + recipients.length * 1000000000
    messageLength := message.utf8ByteSize
    hasMedia := false
    hasLinks := false }

/-- `ExportTelegramBroadcastRecipients` (cleanup_service.go, lines 1276-1284):
returns the stored recipient list unchanged. -/
def exportTelegramBroadcastRecipients (b : TelegramBroadcast) : List Int :=
  b.recipients

/-- `ImportTelegramBroadcastRecipients` (cleanup_service.go, lines 1287-1311):
runs `ValidateRecipients` on the given list, logs (but ignores) the invalid
entries, and stores only the valid subset; `UpdatedAt` is refreshed, the
status is untouched. -/
def importTelegramBroadcastRecipients (now : Nat) (b : TelegramBroadcast)
    (recipients : List Int) : TelegramBroadcast :=
  { b with recipients := (validateRecipients recipients).1, updatedAt := now }

/-- The broadcast model used by `BroadcastService` (src/unnamed/part_004).
Its struct declaration is not among the provided source files; the field set
is reconstructed from its uses in part_004 itself: `CreateBroadcast` (lines
49-77) sets `ID`, `Name`, `Message`, `Recipients []string`, `Status`,
`UserID`, `CreatedAt`, `UpdatedAt` and optionally `ScheduleAt *time.Time`;
`SendBroadcast` (lines 136-171) sets `SentAt`, `CompletedAt`,
`SuccessCount`, `FailureCount`. -/
structure Broadcast where
  id : Nat
  name : String
  message : String
  recipients : List String
  scheduleAt : Option Nat
  status : String
  successCount : Nat
  failureCount : Nat
  userId : Nat
  createdAt : Nat
  updatedAt : Nat
  sentAt : Option Nat
  completedAt : Option Nat
deriving DecidableEq

/-- `BroadcastService.UpdateBroadcast` (src/unnamed/part_004, lines 91-124):
like the Telegram update, each of `name`/`message` is overwritten only when
non-empty and the recipient slice only when non-nil; additionally a
non-empty `scheduleAt` string is parsed (`time.Parse`, an external library
call modelled by the oracle `parseTime`) and a parse error aborts the call —
the error return happens before `UpdatedAt` is touched and before the save,
so nothing is stored on that path. -/
def updateBroadcast (parseTime : String → Except String Nat) (now : Nat)
    (b : Broadcast) (name message : String) (recipients : Option (List String))
    (scheduleAt : String) : Except String Broadcast :=
  let b1 := if name ≠ "" then { b with name := name } else b
  let b2 := if message ≠ "" then { b1 with message := message } else b1
  let b3 := match recipients with
            | some rs => { b2 with recipients := rs }
            | none => b2
  if scheduleAt ≠ "" then
    match parseTime scheduleAt with
    | .error e => .error e
    | .ok t => .ok { b3 with scheduleAt := some t, updatedAt := now }
  else .ok { b3 with updatedAt := now }

/-- The stored row after an `UpdateBroadcast` call: the updated record when
the call succeeds, the untouched original on the error path (nothing is
saved before the error return). -/
def updateBroadcastStored (parseTime : String → Except String Nat) (now : Nat)
    (b : Broadcast) (name message : String) (recipients : Option (List String))
    (scheduleAt : String) : Broadcast :=
  match updateBroadcast parseTime now b name message recipients scheduleAt with
  | .ok b1 => b1
  | .error _ => b

/-!
The WhatsApp batch dispatcher: `WhatsAppService.BroadcastMessage` and
`WhatsAppService.processBroadcastBatch` (cleanup_service.go, lines 624-693).
The contact directory (`ContactService.FindOrCreateContact`) and the gateway
(`WhatsAppService.SendMessage`) are external collaborators, modelled as
oracle functions `resolver : String → Except String Nat` (resolved contact
id, or the resolution error string) and `sender : String → Except String Nat`
(provider message id, or the delivery error string).
-/

/-- One `BroadcastRecipient` row (internal/models/models.go, lines 106-113)
as created by `processBroadcastBatch`.  `contactId` is `none` when resolution
failed (the Go field keeps its zero uuid), `messageId`/`sentAt` are set only
on a successful send, `error` keeps its zero value `""` on success. -/
structure BroadcastRecipientRecord where
  status : String
  error : String
  contactId : Option Nat
  messageId : Option Nat
  sentAt : Option Nat
deriving DecidableEq

/-- The dispatcher's visible state: the `BroadcastRecipient` rows created so
far (in creation order) and the broadcast's `TotalSent` / `TotalFailed`
counters. -/
structure WADispatchState where
  records : List BroadcastRecipientRecord
  totalSent : Nat
  totalFailed : Nat
deriving DecidableEq

/-- The initial dispatcher state: the `Broadcast` row freshly created by
`BroadcastMessage` has `TotalSent = TotalFailed = 0` (the gorm defaults) and
no recipient rows. -/
def waInit : WADispatchState :=
  { records := [], totalSent := 0, totalFailed := 0 }

/-- The body of the loop in `processBroadcastBatch` (cleanup_service.go,
lines 659-690) for one recipient: resolution failure creates a `"failed"`
row carrying the resolution error and continues (note: no counter is
touched on this path); otherwise the gateway is invoked and the row is
created `"failed"` (incrementing `TotalFailed`) or `"sent"` with the message
id and `SentAt` (incrementing `TotalSent`). -/
def processRecipient (resolver : String → Except String Nat)
    (sender : String → Except String Nat) (now : Nat)
    (st : WADispatchState) (recipient : String) : WADispatchState :=
  match resolver recipient with
  | .error e =>
      { st with records := st.records ++
          [{ status := "failed", error := e, contactId := none,
             messageId := none, sentAt := none }] }
  | .ok cid =>
      match sender recipient with
      | .error e =>
          { records := st.records ++
              [{ status := "failed", error := e, contactId := some cid,
                 messageId := none, sentAt := none }]
            totalSent := st.totalSent
            totalFailed := st.totalFailed + 1 }
      | .ok mid =>
          { records := st.records ++
              [{ status := "sent", error := "", contactId := some cid,
                 messageId := some mid, sentAt := some now }]
            totalSent := st.totalSent + 1
            totalFailed := st.totalFailed }

/-- `processBroadcastBatch` (cleanup_service.go, lines 658-693): the loop
over one batch, in list order.  The Go function's only return value is
`nil`. -/
def processBroadcastBatch (resolver : String → Except String Nat)
    (sender : String → Except String Nat) (now : Nat)
    (st : WADispatchState) (recipients : List String) : WADispatchState :=
  recipients.foldl (processRecipient resolver sender now) st

/-- The batching loop of `BroadcastMessage` (cleanup_service.go, lines
638-650): `for i := 0; i < len(recipients); i += batchSize` with
`batch := recipients[i : min(i+batchSize, len(recipients))]`.  The recursion
is driven by a fuel argument bounded by the list length, which dominates the
number of loop iterations whenever `n ≥ 1` (the code always uses the literal
`batchSize = 50`). -/
def chunkListAux (n : Nat) : Nat → List String → List (List String)
  | 0, _ => []
  | _ + 1, [] => []
  | fuel + 1, x :: xs => (x :: xs).take n :: chunkListAux n fuel ((x :: xs).drop n)

/-- The batch decomposition used by `BroadcastMessage`: consecutive slices of
size `n` (the last one possibly shorter). -/
def chunkList (n : Nat) (l : List String) : List (List String) :=
  chunkListAux n l.length l

/-- `BroadcastMessage` (cleanup_service.go, lines 624-656), restricted to its
dispatch loop: the freshly created broadcast (counters 0, no rows) is fed
through `processBroadcastBatch` batch by batch, batches of size 50 in list
order. -/
def broadcastMessage (resolver : String → Except String Nat)
    (sender : String → Except String Nat) (now : Nat)
    (recipients : List String) : WADispatchState :=
  (chunkList 50 recipients).foldl
    (fun st batch => processBroadcastBatch resolver sender now st batch)
    waInit

/-- The `BroadcastRecipient` row that `processRecipient` appends for a given
recipient, as a function of the two oracles. -/
def emittedRecord (resolver : String → Except String Nat)
    (sender : String → Except String Nat) (now : Nat)
    (recipient : String) : BroadcastRecipientRecord :=
  match resolver recipient with
  | .error e =>
      { status := "failed", error := e, contactId := none,
        messageId := none, sentAt := none }
  | .ok cid =>
      match sender recipient with
      | .error e =>
          { status := "failed", error := e, contactId := some cid,
            messageId := none, sentAt := none }
      | .ok mid =>
          { status := "sent", error := "", contactId := some cid,
            messageId := some mid, sentAt := some now }

/-- Whether `processRecipient` increments `TotalSent` for a recipient:
resolution succeeded and the gateway accepted the message. -/
def countsSent (resolver : String → Except String Nat)
    (sender : String → Except String Nat) (recipient : String) : Bool :=
  (resolver recipient).isOk && (sender recipient).isOk

/-- Whether `processRecipient` increments `TotalFailed` for a recipient:
resolution succeeded and the gateway refused the message.  A recipient whose
resolution fails increments neither counter. -/
def countsFailed (resolver : String → Except String Nat)
    (sender : String → Except String Nat) (recipient : String) : Bool :=
  (resolver recipient).isOk && !(sender recipient).isOk

theorem processRecipient_spec (resolver sender : String → Except String Nat)
    (now : Nat) (st : WADispatchState) (r : String) :
    processRecipient resolver sender now st r =
      { records := st.records ++ [emittedRecord resolver sender now r]
        totalSent := st.totalSent + (if countsSent resolver sender r then 1 else 0)
        totalFailed := st.totalFailed + (if countsFailed resolver sender r then 1 else 0) } := by
  unfold processRecipient emittedRecord countsSent countsFailed
  cases hres : resolver r with
  | error e => simp [Except.isOk, Except.toBool]
  | ok cid =>
      cases hsnd : sender r with
      | error e => simp [Except.isOk, Except.toBool]
      | ok mid => simp [Except.isOk, Except.toBool]

theorem processBroadcastBatch_spec (resolver sender : String → Except String Nat)
    (now : Nat) (st : WADispatchState) (l : List String) :
    processBroadcastBatch resolver sender now st l =
      { records := st.records ++ l.map (emittedRecord resolver sender now)
        totalSent := st.totalSent + l.countP (countsSent resolver sender)
        totalFailed := st.totalFailed + l.countP (countsFailed resolver sender) } := by
  induction l generalizing st with
  | nil => simp [processBroadcastBatch]
  | cons r rs ih =>
      have hstep : processBroadcastBatch resolver sender now st (r :: rs) =
          processBroadcastBatch resolver sender now
            (processRecipient resolver sender now st r) rs := rfl
      rw [hstep, ih, processRecipient_spec]
      simp [List.countP_cons]
      all_goals omega

theorem countP_and_split (a b : String → Bool) (l : List String) :
    l.countP (fun x => a x && b x) + l.countP (fun x => a x && !b x) =
      l.countP a := by
  induction l with
  | nil => simp
  | cons x xs ih =>
      simp only [List.countP_cons]
      cases ha : a x <;> cases hb : b x <;> simp [ha, hb] <;> omega

theorem countsSent_add_countsFailed (resolver sender : String → Except String Nat)
    (l : List String) :
    l.countP (countsSent resolver sender) + l.countP (countsFailed resolver sender) =
      l.countP (fun r => (resolver r).isOk) := by
  unfold countsSent countsFailed
  exact countP_and_split (fun r => (resolver r).isOk) (fun r => (sender r).isOk) l

theorem chunkListAux_foldl {β : Type} (f : β → String → β) (n : Nat) (hn : n ≠ 0) :
    ∀ (fuel : Nat) (l : List String), l.length ≤ fuel → ∀ (st : β),
      (chunkListAux n fuel l).foldl (fun s batch => batch.foldl f s) st =
        l.foldl f st := by
  intro fuel
  induction fuel with
  | zero =>
      intro l hl st
      have : l = [] := List.eq_nil_of_length_eq_zero (Nat.le_zero.mp hl)
      subst this
      rfl
  | succ m ih =>
      intro l hl st
      cases l with
      | nil => rfl
      | cons x xs =>
          have hdrop : ((x :: xs).drop n).length ≤ m := by
            simp only [List.length_drop, List.length_cons]
            simp only [List.length_cons] at hl
            omega
          calc (chunkListAux n (m + 1) (x :: xs)).foldl
                  (fun s batch => batch.foldl f s) st
              = (chunkListAux n m ((x :: xs).drop n)).foldl
                  (fun s batch => batch.foldl f s) (((x :: xs).take n).foldl f st) := rfl
            _ = ((x :: xs).drop n).foldl f (((x :: xs).take n).foldl f st) :=
                  ih ((x :: xs).drop n) hdrop _
            _ = (((x :: xs).take n) ++ ((x :: xs).drop n)).foldl f st :=
                  (List.foldl_append ..).symm
            _ = (x :: xs).foldl f st := by rw [List.take_append_drop]

/-- The arithmetic shadow of `chunkListAux`: the lengths of the produced
batches as a function of the input length. -/
def chunkLensAux (n : Nat) : Nat → Nat → List Nat
  | 0, _ => []
  | _ + 1, 0 => []
  | fuel + 1, len + 1 => min n (len + 1) :: chunkLensAux n fuel (len + 1 - n)

theorem chunkListAux_map_length (n : Nat) :
    ∀ (fuel : Nat) (l : List String),
      (chunkListAux n fuel l).map List.length = chunkLensAux n fuel l.length := by
  intro fuel
  induction fuel with
  | zero => intro l; rfl
  | succ m ih =>
      intro l
      cases l with
      | nil => rfl
      | cons x xs =>
          show ((x :: xs).take n).length ::
              (chunkListAux n m ((x :: xs).drop n)).map List.length =
            min n (xs.length + 1) :: chunkLensAux n m (xs.length + 1 - n)
          rw [ih ((x :: xs).drop n)]
          simp [List.length_take, List.length_drop]

theorem validateRecipients_go (l : List Int) :
    ∀ (va : List Int) (er : List String),
      l.foldl
          (fun acc r =>
            if r ≤ 0 then (acc.1, acc.2 ++ [invalidRecipientMsg r])
            else (acc.1 ++ [r], acc.2))
          (va, er)
        = (va ++ l.filter (fun r => decide (0 < r)),
           er ++ (l.filter (fun r => decide (r ≤ 0))).map invalidRecipientMsg) := by
  induction l with
  | nil => intro va er; simp
  | cons x xs ih =>
      intro va er
      by_cases h : x ≤ 0
      · have h' : ¬ (0 : Int) < x := by omega
        simp only [List.foldl_cons, if_pos h]
        rw [ih]
        simp [List.filter_cons, h, h']
      · have h' : (0 : Int) < x := by omega
        simp only [List.foldl_cons, if_neg h]
        rw [ih]
        simp [List.filter_cons, h, h']

theorem validateRecipients_eq (l : List Int) :
    validateRecipients l =
      (l.filter (fun r => decide (0 < r)),
       (l.filter (fun r => decide (r ≤ 0))).map invalidRecipientMsg) := by
  unfold validateRecipients
  simpa using validateRecipients_go l [] []

theorem countP_pos_add_nonpos (l : List Int) :
    l.countP (fun r => decide (0 < r)) + l.countP (fun r => decide (r ≤ 0)) =
      l.length := by
  induction l with
  | nil => rfl
  | cons x xs ih =>
      simp only [List.countP_cons, List.length_cons]
      by_cases h : (0 : Int) < x
      · have h' : ¬ x ≤ 0 := by omega
        simp [h, h']
        omega
      · have h' : x ≤ 0 := by omega
        simp [h, h']
        omega

/-- The net effect of `SendTelegramBroadcast` on the stored campaign, written
out field by field. -/
theorem sendTelegramBroadcast_eq (gw : Int → String → Bool) (now : Nat)
    (b : TelegramBroadcast) :
    sendTelegramBroadcast gw now b =
      { b with
        status := "completed"
        successCount := b.recipients.countP (fun r => gw r b.message)
        failureCount := b.recipients.length -
          b.recipients.countP (fun r => gw r b.message)
        sentAt := some now
        completedAt := some now } := rfl

/-!
Claim theorems.
-/

/-- C1 (counterexample to the claim as stated): the equality
`success_count + failure_count = len(recipients)` does not hold for every
campaign whose status is `"completed"`.  A campaign is created with two
recipients and dispatched (both sends succeed, so the counters sum to 2 and
the status becomes `"completed"`); `ImportTelegramBroadcastRecipients` then
replaces the recipient list with a single entry without touching the status
or the counters, leaving a `"completed"` campaign whose counters sum to 2
while its recipient list has length 1. -/
theorem c1_counterexample :
    (importTelegramBroadcastRecipients 6
        (sendTelegramBroadcast (fun _ _ => true) 5
          (createTelegramBroadcast 1 0 "n" "m" [1, 2] 0)) [7]).status = "completed"
    ∧ ¬ ((importTelegramBroadcastRecipients 6
          (sendTelegramBroadcast (fun _ _ => true) 5
            (createTelegramBroadcast 1 0 "n" "m" [1, 2] 0)) [7]).successCount
        + (importTelegramBroadcastRecipients 6
            (sendTelegramBroadcast (fun _ _ => true) 5
              (createTelegramBroadcast 1 0 "n" "m" [1, 2] 0)) [7]).failureCount
        = (importTelegramBroadcastRecipients 6
            (sendTelegramBroadcast (fun _ _ => true) 5
              (createTelegramBroadcast 1 0 "n" "m" [1, 2] 0)) [7]).recipients.length) := by
  decide

/-- C1 (amended): at the moment a dispatch run completes, the campaign's
status is `"completed"` and `success_count + failure_count` equals the length
of its (then current) recipient list; and at every point during a WhatsApp
batch dispatch run (which starts from zero counters), `TotalSent + TotalFailed`
is at most the length of the full recipient list.  The equality for completed
campaigns is only guaranteed at completion time: `Update`/`Import` can later
replace the recipient list without resetting status or counters. -/
theorem c1_theorem :
    (∀ (gw : Int → String → Bool) (now : Nat) (b : TelegramBroadcast),
      (sendTelegramBroadcast gw now b).status = "completed"
      ∧ (sendTelegramBroadcast gw now b).successCount
          + (sendTelegramBroadcast gw now b).failureCount
          = (sendTelegramBroadcast gw now b).recipients.length)
    ∧ (∀ (resolver sender : String → Except String Nat) (now : Nat)
        (l : List String) (i : Nat),
        (processBroadcastBatch resolver sender now waInit (l.take i)).totalSent
          + (processBroadcastBatch resolver sender now waInit (l.take i)).totalFailed
          ≤ l.length) := by
  constructor
  · intro gw now b
    refine ⟨rfl, ?_⟩
    show b.recipients.countP (fun r => gw r b.message)
        + (b.recipients.length - b.recipients.countP (fun r => gw r b.message))
        = b.recipients.length
    have hle : b.recipients.countP (fun r => gw r b.message) ≤ b.recipients.length :=
      List.countP_le_length _
    omega
  · intro resolver sender now l i
    rw [processBroadcastBatch_spec]
    have h1 := countsSent_add_countsFailed resolver sender (l.take i)
    have h2 : (l.take i).countP (fun r => (resolver r).isOk) ≤ (l.take i).length :=
      List.countP_le_length _
    have h3 : (l.take i).length ≤ l.length := by
      rw [List.length_take]; omega
    show waInit.totalSent + (l.take i).countP (countsSent resolver sender)
        + (waInit.totalFailed + (l.take i).countP (countsFailed resolver sender))
        ≤ l.length
    show 0 + (l.take i).countP (countsSent resolver sender)
        + (0 + (l.take i).countP (countsFailed resolver sender)) ≤ l.length
    omega

/-- C2 (counterexample to the claim as stated): dispatching a campaign whose
status is already `"completed"` does not return a `StateConflictError` with
no side effects — `SendTelegramBroadcast` has no status check at all.  The
concrete completed campaign below (2 recipients, both delivered, so
`success_count = 2`) is dispatched again against a gateway that now refuses
everything: the stored campaign's `success_count` is overwritten to 0. -/
theorem c2_counterexample :
    (sendTelegramBroadcast (fun _ _ => true) 5
      (createTelegramBroadcast 1 0 "n" "m" [1, 2] 0)).status = "completed"
    ∧ (sendTelegramBroadcast (fun _ _ => false) 9
        (sendTelegramBroadcast (fun _ _ => true) 5
          (createTelegramBroadcast 1 0 "n" "m" [1, 2] 0))).successCount
      ≠ (sendTelegramBroadcast (fun _ _ => true) 5
          (createTelegramBroadcast 1 0 "n" "m" [1, 2] 0)).successCount := by
  decide

/-- C2 (amended): the dispatch entry point performs no status check: for
every prior status (in particular `"completed"`), its result is the same as
for a `"pending"` campaign — the intermediate save puts the campaign into
`"sending"` with `sent_at = now`, delivery is re-run, the counters are
overwritten, and the final status is `"completed"`.  No state-conflict error
exists on this path. -/
theorem c2_theorem :
    ∀ (gw : Int → String → Bool) (now : Nat) (b : TelegramBroadcast),
      sendTelegramBroadcast gw now b
        = sendTelegramBroadcast gw now { b with status := "pending" }
      ∧ (sendTelegramBroadcastFirstSave now b).status = "sending"
      ∧ (sendTelegramBroadcast gw now b).status = "completed"
      ∧ (sendTelegramBroadcast gw now b).sentAt = some now := by
  intro gw now b
  exact ⟨rfl, rfl, rfl, rfl⟩

/-- C3 (counterexample to the claim as stated): `Cancel` does not succeed on
every campaign whose status is in {draft, pending} — a campaign whose status
field is `"draft"` is rejected, because the code compares the status against
the single string `"pending"`. -/
theorem c3_counterexample :
    (cancelTelegramBroadcast 3
      { createTelegramBroadcast 1 0 "n" "m" [1] 0 with status := "draft" }).isOk
      = false := by
  decide

/-- C3 (amended): `Cancel` succeeds if and only if the campaign's current
status is exactly `"pending"` (the only not-yet-sent status the Telegram
service ever assigns), setting the status to `"cancelled"`; for every other
status value (including `"draft"`, `"sending"`, `"completed"`,
`"cancelled"`) it returns the error `"can only cancel pending broadcasts"`
and saves nothing, so the stored campaign is unchanged. -/
theorem c3_theorem :
    ∀ (now : Nat) (b : TelegramBroadcast),
      cancelTelegramBroadcast now b
        = (if b.status = "pending"
           then Except.ok { b with status := "cancelled", updatedAt := now }
           else Except.error "can only cancel pending broadcasts")
      ∧ (cancelTelegramBroadcast now b).isOk = (b.status == "pending") := by
  intro now b
  unfold cancelTelegramBroadcast
  by_cases h : b.status = "pending"
  · simp [h, Except.isOk, Except.toBool]
  · simp [h, Except.isOk, Except.toBool]

/-- C4 (counterexample to the claim as stated): a recipient whose resolution
fails does get a `"failed"` record carrying the resolution error, but the
campaign's failure counter is NOT incremented.  With a resolver that fails
on the single recipient `"a"`, the batch finishes with one failed record and
`TotalFailed = 0` (the claim requires it to be incremented). -/
theorem c4_counterexample :
    (processBroadcastBatch (fun _ => Except.error "resolution failed")
        (fun _ => Except.ok 7) 0 waInit ["a"]).totalFailed = 0
    ∧ (processBroadcastBatch (fun _ => Except.error "resolution failed")
        (fun _ => Except.ok 7) 0 waInit ["a"]).records
      = [{ status := "failed", error := "resolution failed", contactId := none,
           messageId := none, sentAt := none }] := by
  decide

/-- C4 (amended): for every recipient `r` whose resolution fails with error
`e`, the dispatcher creates a delivery record marked `"failed"` carrying `e`
(with no contact id, message id or sent time) and continues: every recipient
after `r` is still processed exactly as it would have been (each later
record is the gateway-consulting `emittedRecord` of that recipient), and the
run is not aborted.  However, neither counter is touched for `r`: the final
`TotalSent` and `TotalFailed` are the same as if `r` had not been in the
list at all — resolution failures are not rolled into `failure_count`. -/
theorem c4_theorem (resolver sender : String → Except String Nat) (now : Nat)
    (st : WADispatchState) (l1 l2 : List String) (r e : String)
    (h : resolver r = Except.error e) :
    (processBroadcastBatch resolver sender now st (l1 ++ r :: l2)).records
      = (processBroadcastBatch resolver sender now st l1).records
        ++ { status := "failed", error := e, contactId := none,
             messageId := none, sentAt := none }
        :: l2.map (emittedRecord resolver sender now)
    ∧ (processBroadcastBatch resolver sender now st (l1 ++ r :: l2)).totalSent
        = (processBroadcastBatch resolver sender now st (l1 ++ l2)).totalSent
    ∧ (processBroadcastBatch resolver sender now st (l1 ++ r :: l2)).totalFailed
        = (processBroadcastBatch resolver sender now st (l1 ++ l2)).totalFailed := by
  have hem : emittedRecord resolver sender now r =
      { status := "failed", error := e, contactId := none,
        messageId := none, sentAt := none } := by
    unfold emittedRecord
    rw [h]
  have hsent : countsSent resolver sender r = false := by
    unfold countsSent
    rw [h]
    rfl
  have hfailed : countsFailed resolver sender r = false := by
    unfold countsFailed
    rw [h]
    rfl
  refine ⟨?_, ?_, ?_⟩ <;>
    simp [processBroadcastBatch_spec, List.map_append, List.countP_append,
      List.countP_cons, hem, hsent, hfailed]

/-- C4 witness: the amended theorem applied to the concrete batch
`["a", "b"]` whose first recipient fails resolution. -/
theorem c4_witness :
    (processBroadcastBatch (fun _ => Except.error "E") (fun _ => Except.ok 0) 0
        waInit ([] ++ "a" :: ["b"])).totalFailed
      = (processBroadcastBatch (fun _ => Except.error "E") (fun _ => Except.ok 0) 0
        waInit ([] ++ ["b"])).totalFailed :=
  (c4_theorem (fun _ => Except.error "E") (fun _ => Except.ok 0) 0 waInit
    [] ["b"] "a" "E" rfl).2.2

/-- C5: `ValidateRecipients` returns exactly the positive identifiers in
input order as its valid list, one error entry (the `"Invalid recipient
ID: _"` string) per non-positive identifier, in input order, and the two
output lengths sum to the input length, so every input element is accounted
for in exactly one of the two outputs.  The Go function has no error return
at all, so the call as a whole never fails. -/
theorem c5_theorem (l : List Int) :
    (validateRecipients l).1 = l.filter (fun r => decide (0 < r))
    ∧ (validateRecipients l).2
        = (l.filter (fun r => decide (r ≤ 0))).map invalidRecipientMsg
    ∧ (validateRecipients l).1.length + (validateRecipients l).2.length
        = l.length := by
  rw [validateRecipients_eq]
  refine ⟨rfl, rfl, ?_⟩
  simp only [List.length_map, ← List.countP_eq_length_filter]
  exact countP_pos_add_nonpos l

/-- C6 (counterexample to the claim as stated): export-then-import is not the
identity on every campaign's recipient list.  `CreateTelegramBroadcast`
stores the list unvalidated, so a campaign can hold the non-positive entry
`-1`; importing its own export re-validates and drops that entry. -/
theorem c6_counterexample :
    (importTelegramBroadcastRecipients 4
        (createTelegramBroadcast 1 0 "n" "m" [-1, 5] 0)
        (exportTelegramBroadcastRecipients
          (createTelegramBroadcast 1 0 "n" "m" [-1, 5] 0))).recipients
      ≠ (createTelegramBroadcast 1 0 "n" "m" [-1, 5] 0).recipients := by
  decide

/-- C6 (amended): whenever every stored recipient is valid (positive) —
in particular for any list that itself came through `Import` — exporting a
campaign's recipients and importing the exported list back reproduces the
identical recipient list; in general import keeps only the positive subset
of the exported list. -/
theorem c6_theorem (now : Nat) (b : TelegramBroadcast)
    (h : ∀ r ∈ b.recipients, 0 < r) :
    (importTelegramBroadcastRecipients now b
      (exportTelegramBroadcastRecipients b)).recipients = b.recipients := by
  show (validateRecipients b.recipients).1 = b.recipients
  rw [validateRecipients_eq]
  exact List.filter_eq_self.mpr (fun a ha => decide_eq_true (h a ha))

/-- C6 witness: the round trip on a concrete campaign whose two recipients
are both positive. -/
theorem c6_witness :
    (importTelegramBroadcastRecipients 4
        (createTelegramBroadcast 1 0 "n" "m" [1, 2] 0)
        (exportTelegramBroadcastRecipients
          (createTelegramBroadcast 1 0 "n" "m" [1, 2] 0))).recipients
      = (createTelegramBroadcast 1 0 "n" "m" [1, 2] 0).recipients :=
  c6_theorem 4 (createTelegramBroadcast 1 0 "n" "m" [1, 2] 0) (by decide)

/-- C7 (counterexample to the claim as stated): the duplicate of an existing
(here: completed) campaign has status `"pending"`, not `"draft"` — the
service never uses a `"draft"` status. -/
theorem c7_counterexample :
    (duplicateTelegramBroadcast 2 9 0
      { createTelegramBroadcast 1 0 "n" "m" [1] 0 with
        status := "completed" }).status ≠ "draft" := by
  decide

/-- C7 (amended): for every existing campaign, regardless of its status,
`Duplicate` creates a new campaign carrying the supplied fresh id, status
`"pending"` (the service's initial status), both counters 0, no sent/completed
timestamps, message and recipient list identical to the source's, and the
source's name suffixed with `" (Copy)"`. -/
theorem c7_theorem :
    ∀ (newId now userId : Nat) (b : TelegramBroadcast),
      (duplicateTelegramBroadcast newId now userId b).id = newId
      ∧ (duplicateTelegramBroadcast newId now userId b).status = "pending"
      ∧ (duplicateTelegramBroadcast newId now userId b).successCount = 0
      ∧ (duplicateTelegramBroadcast newId now userId b).failureCount = 0
      ∧ (duplicateTelegramBroadcast newId now userId b).message = b.message
      ∧ (duplicateTelegramBroadcast newId now userId b).recipients = b.recipients
      ∧ (duplicateTelegramBroadcast newId now userId b).name = b.name ++ " (Copy)"
      ∧ (duplicateTelegramBroadcast newId now userId b).sentAt = none
      ∧ (duplicateTelegramBroadcast newId now userId b).completedAt = none := by
  intro newId now userId b
  exact ⟨rfl, rfl, rfl, rfl, rfl, rfl, rfl, rfl, rfl⟩

/-- C8 (counterexample to the claim as stated): after a dispatch of 120
recipients the counters do not necessarily sum to 120 — with a contact
resolver that fails on every recipient, all 120 recipients get failed
records but neither counter is ever incremented, so the counters sum to 0. -/
theorem c8_counterexample :
    (broadcastMessage (fun _ => Except.error "no contact") (fun _ => Except.ok 0) 0
        (List.replicate 120 "r")).totalSent
      + (broadcastMessage (fun _ => Except.error "no contact") (fun _ => Except.ok 0) 0
        (List.replicate 120 "r")).totalFailed ≠ 120 := by
  decide

/-- C8 (amended): `BroadcastMessage` partitions the recipient list into
consecutive batches of at most 50 in list order — a list of 120 recipients
yields exactly 3 batches of sizes 50, 50, 20 — and the batched dispatch is
extensionally equal to processing the whole list sequentially without
batching, so batch size has no effect on the final records or counters.
After dispatch the counters sum to the number of recipients whose contact
resolution succeeded (each such recipient increments exactly one counter;
recipients whose resolution fails increment neither), which is 120 for 120
recipients only when every resolution succeeds. -/
theorem c8_theorem :
    (∀ l : List String, l.length = 120 →
      (chunkList 50 l).map List.length = [50, 50, 20])
    ∧ (∀ (resolver sender : String → Except String Nat) (now : Nat)
        (recipients : List String),
        broadcastMessage resolver sender now recipients
          = processBroadcastBatch resolver sender now waInit recipients)
    ∧ (∀ (resolver sender : String → Except String Nat) (now : Nat)
        (recipients : List String),
        (broadcastMessage resolver sender now recipients).totalSent
          + (broadcastMessage resolver sender now recipients).totalFailed
          = recipients.countP (fun r => (resolver r).isOk)) := by
  have hflat : ∀ (resolver sender : String → Except String Nat) (now : Nat)
      (recipients : List String),
      broadcastMessage resolver sender now recipients
        = processBroadcastBatch resolver sender now waInit recipients := by
    intro resolver sender now recipients
    show (chunkListAux 50 recipients.length recipients).foldl
        (fun st batch => batch.foldl (processRecipient resolver sender now) st) waInit
      = recipients.foldl (processRecipient resolver sender now) waInit
    exact chunkListAux_foldl (processRecipient resolver sender now) 50
      (by decide) recipients.length recipients le_rfl waInit
  refine ⟨?_, hflat, ?_⟩
  · intro l hl
    show (chunkListAux 50 l.length l).map List.length = [50, 50, 20]
    rw [chunkListAux_map_length, hl]
    decide
  · intro resolver sender now recipients
    rw [hflat]
    show (processBroadcastBatch resolver sender now waInit recipients).totalSent
        + (processBroadcastBatch resolver sender now waInit recipients).totalFailed
        = recipients.countP (fun r => (resolver r).isOk)
    rw [processBroadcastBatch_spec]
    show 0 + recipients.countP (countsSent resolver sender)
        + (0 + recipients.countP (countsFailed resolver sender))
        = recipients.countP (fun r => (resolver r).isOk)
    have h := countsSent_add_countsFailed resolver sender recipients
    omega

/-- C8 witness: the batch-shape clause of the amended theorem applied to a
concrete list of 120 recipients. -/
theorem c8_witness :
    (chunkList 50 (List.replicate 120 "x")).map List.length = [50, 50, 20] :=
  c8_theorem.1 (List.replicate 120 "x") (by simp)

/-- C9: `PreviewTelegramBroadcast` is a pure function of its inputs (it is
modelled as such because the Go function reads and writes no store); its
recipient count is the length of the recipient list, its message length is
Go's `len(message)` (the UTF-8 byte size), and its estimated delivery time
is `now` plus the recipient count times the fixed per-recipient cost of one
second (10^9 ns). -/
theorem c9_theorem :
    ∀ (now : Nat) (message : String) (recipients : List Int),
      (previewTelegramBroadcast now message recipients).recipientCount
          = recipients.length
      ∧ (previewTelegramBroadcast now message recipients).messageLength
          = message.utf8ByteSize
      ∧ (previewTelegramBroadcast now message recipients).estimatedDelivery
          = now + recipients.length * 1000000000 := by
  intro now message recipients
  exact ⟨rfl, rfl, rfl⟩

theorem updateTelegramBroadcast_eq (now : Nat) (b : TelegramBroadcast)
    (name message : String) (recipients : Option (List Int)) :
    updateTelegramBroadcast now b name message recipients =
      { b with
        name := if name = "" then b.name else name
        message := if message = "" then b.message else message
        recipients := recipients.getD b.recipients
        updatedAt := now } := by
  unfold updateTelegramBroadcast
  cases recipients <;>
    by_cases hn : name = "" <;> by_cases hm : message = "" <;> simp [hn, hm]

theorem updateBroadcast_eq (parseTime : String → Except String Nat) (now : Nat)
    (b : Broadcast) (name message : String) (recipients : Option (List String))
    (scheduleAt : String) :
    updateBroadcast parseTime now b name message recipients scheduleAt =
      (if scheduleAt = "" then
        Except.ok { b with
          name := if name = "" then b.name else name
          message := if message = "" then b.message else message
          recipients := recipients.getD b.recipients
          updatedAt := now }
      else
        match parseTime scheduleAt with
        | .error e => Except.error e
        | .ok t =>
            Except.ok { b with
              name := if name = "" then b.name else name
              message := if message = "" then b.message else message
              recipients := recipients.getD b.recipients
              scheduleAt := some t
              updatedAt := now }) := by
  unfold updateBroadcast
  by_cases hs : scheduleAt = ""
  · cases recipients <;>
      by_cases hn : name = "" <;> by_cases hm : message = "" <;> simp [hn, hm, hs]
  · cases hp : parseTime scheduleAt <;>
      cases recipients <;>
        by_cases hn : name = "" <;> by_cases hm : message = "" <;>
          simp [hn, hm, hs, hp]

theorem updateBroadcastStored_eq (parseTime : String → Except String Nat)
    (now : Nat) (b : Broadcast) (name message : String)
    (recipients : Option (List String)) (scheduleAt : String) :
    updateBroadcastStored parseTime now b name message recipients scheduleAt =
      (if scheduleAt = "" then
        { b with
          name := if name = "" then b.name else name
          message := if message = "" then b.message else message
          recipients := recipients.getD b.recipients
          updatedAt := now }
      else
        match parseTime scheduleAt with
        | .error _ => b
        | .ok t =>
            { b with
              name := if name = "" then b.name else name
              message := if message = "" then b.message else message
              recipients := recipients.getD b.recipients
              scheduleAt := some t
              updatedAt := now }) := by
  unfold updateBroadcastStored
  rw [updateBroadcast_eq]
  by_cases hs : scheduleAt = ""
  · simp [hs]
  · cases hp : parseTime scheduleAt <;> simp [hs, hp]

/-- C10: in both update operations — `UpdateTelegramBroadcast` and the
WhatsApp-side `BroadcastService.UpdateBroadcast` — a name or message
argument that is the empty string, and a nil recipient list, leave the
corresponding stored field unchanged, and every field other than those given
non-empty arguments (plus `updated_at`) is carried over from the original
campaign (id, status, counters, user, creation and send timestamps).  In the
WhatsApp variant a non-empty `scheduleAt` that fails to parse aborts the
call before anything is saved, so the stored campaign is then completely
unchanged.  Consequently an update can never set a non-empty name or message
to the empty string. -/
theorem c10_theorem :
    (∀ (now : Nat) (b : TelegramBroadcast) (name message : String)
      (recipients : Option (List Int)),
      updateTelegramBroadcast now b name message recipients =
        { b with
          name := if name = "" then b.name else name
          message := if message = "" then b.message else message
          recipients := recipients.getD b.recipients
          updatedAt := now })
    ∧ (∀ (parseTime : String → Except String Nat) (now : Nat) (b : Broadcast)
        (name message : String) (recipients : Option (List String))
        (scheduleAt : String),
        updateBroadcast parseTime now b name message recipients scheduleAt =
          (if scheduleAt = "" then
            Except.ok { b with
              name := if name = "" then b.name else name
              message := if message = "" then b.message else message
              recipients := recipients.getD b.recipients
              updatedAt := now }
          else
            match parseTime scheduleAt with
            | .error e => Except.error e
            | .ok t =>
                Except.ok { b with
                  name := if name = "" then b.name else name
                  message := if message = "" then b.message else message
                  recipients := recipients.getD b.recipients
                  scheduleAt := some t
                  updatedAt := now }))
    ∧ (∀ (parseTime : String → Except String Nat) (now : Nat) (b : Broadcast)
        (name message : String) (recipients : Option (List String))
        (scheduleAt : String),
        updateBroadcastStored parseTime now b name message recipients scheduleAt =
          (if scheduleAt = "" then
            { b with
              name := if name = "" then b.name else name
              message := if message = "" then b.message else message
              recipients := recipients.getD b.recipients
              updatedAt := now }
          else
            match parseTime scheduleAt with
            | .error _ => b
            | .ok t =>
                { b with
                  name := if name = "" then b.name else name
                  message := if message = "" then b.message else message
                  recipients := recipients.getD b.recipients
                  scheduleAt := some t
                  updatedAt := now })) :=
  ⟨fun now b name message recipients =>
      updateTelegramBroadcast_eq now b name message recipients,
   fun parseTime now b name message recipients scheduleAt =>
      updateBroadcast_eq parseTime now b name message recipients scheduleAt,
   fun parseTime now b name message recipients scheduleAt =>
      updateBroadcastStored_eq parseTime now b name message recipients scheduleAt⟩
